import Mathlib

/-!
Verification of the node runtime provisioning and invocation core
(crates/node_runtime/src/node_runtime.rs).

The Rust source is effectful (filesystem, subprocesses, HTTP).  We embed it
shallowly: every external capability (filesystem metadata, file contents,
subprocess results, HTTP fetches) is passed in as an explicit environment
value, and functions that perform effects additionally return the ordered
list of effect events they would issue.  Pure helpers (platform labels, URL
construction, version comparison, registry-payload interpretation) are
translated directly.
-/

namespace NodeRuntime

/-- `Path::join` with a relative component, as used throughout the source. -/
def pjoin (a b : String) : String := a ++ "/" ++ b

/-- The pinned runtime version constant `VERSION` from the source. -/
def VERSION : String := "v18.15.0"

/-! ## Semantic versions

Modelled from the spec: the `semver` crate used by `should_install_npm_package`
is an external dependency (not under the repository source); we model
`Version::parse` and the strict-order comparison after SemVer 2.0.0 as the
spec describes ("parse as a semantic version", "strictly less than").
Numeric components are modelled as unbounded naturals (the crate's u64 bound
is not modelled) and build metadata is parsed but, per SemVer precedence,
ignored by the comparison. -/

structure Semver where
  major : Nat
  minor : Nat
  patch : Nat
  pre : List String
  build : List String
deriving DecidableEq, Repr

/-- Split a character list at every occurrence of `sep`. -/
def splitOnChar (sep : Char) : List Char → List (List Char)
  | [] => [[]]
  | c :: rest =>
    if c = sep then [] :: splitOnChar sep rest
    else
      match splitOnChar sep rest with
      | [] => [[c]]
      | g :: gs => (c :: g) :: gs

/-- Split at the first occurrence of `sep`, when there is one. -/
def splitFirst (sep : Char) : List Char → List Char × Option (List Char)
  | [] => ([], none)
  | c :: rest =>
    if c = sep then ([], some rest)
    else
      let (l, r) := splitFirst sep rest
      (c :: l, r)

/-- The numeric value of a digit list (most significant first). -/
def charsToNat : List Char → Nat → Nat
  | [], acc => acc
  | c :: rest, acc => charsToNat rest (acc * 10 + (c.toNat - 48))

/-- A numeric version component: nonempty, all ASCII digits, no leading zero. -/
def parseNumericId (cs : List Char) : Option Nat :=
  if cs.isEmpty then none
  else if !(cs.all Char.isDigit) then none
  else if cs.length > 1 && cs.head? == some '0' then none
  else some (charsToNat cs 0)

/-- Characters allowed in prerelease/build identifiers. -/
def isIdentChar (c : Char) : Bool := c.isAlphanum || c = '-'

/-- A valid prerelease identifier: nonempty, alphanumeric or hyphen,
and numeric identifiers carry no leading zero. -/
def validPreId (cs : List Char) : Bool :=
  !cs.isEmpty && cs.all isIdentChar &&
    (!(cs.all Char.isDigit) || cs.length == 1 || !(cs.head? == some '0'))

/-- A valid build identifier: nonempty, alphanumeric or hyphen. -/
def validBuildId (cs : List Char) : Bool :=
  !cs.isEmpty && cs.all isIdentChar

/-- Parse a semantic version string: `major.minor.patch` with optional
`-prerelease` and `+build` parts.  The build part is split off at the first
plus sign and the prerelease part at the first hyphen (later hyphens belong
to prerelease identifiers themselves). -/
def Semver.parse (s : String) : Option Semver :=
  let (corePre, buildPart) := splitFirst '+' s.toList
  let (core, prePart) := splitFirst '-' corePre
  match splitOnChar '.' core with
  | [a, b, c] => do
    let major ← parseNumericId a
    let minor ← parseNumericId b
    let patch ← parseNumericId c
    let pre ← match prePart with
      | none => some ([] : List String)
      | some p =>
        let ids := splitOnChar '.' p
        if ids.all validPreId then some (ids.map String.mk) else none
    let build ← match buildPart with
      | none => some ([] : List String)
      | some bp =>
        let ids := splitOnChar '.' bp
        if ids.all validBuildId then some (ids.map String.mk) else none
    some ⟨major, minor, patch, pre, build⟩
  | _ => none

/-- Lexicographic comparison of character lists by code point. -/
def cmpChars : List Char → List Char → Ordering
  | [], [] => Ordering.eq
  | [], _ :: _ => Ordering.lt
  | _ :: _, [] => Ordering.gt
  | a :: as, b :: bs => (compare a.toNat b.toNat).then (cmpChars as bs)

/-- Compare two prerelease identifiers: numeric identifiers order numerically
and rank below alphanumeric ones; alphanumeric identifiers order by ASCII. -/
def cmpPreId (a b : String) : Ordering :=
  let as := a.toList
  let bs := b.toList
  match !as.isEmpty && as.all Char.isDigit, !bs.isEmpty && bs.all Char.isDigit with
  | true, true => compare (charsToNat as 0) (charsToNat bs 0)
  | true, false => Ordering.lt
  | false, true => Ordering.gt
  | false, false => cmpChars as bs

/-- Compare identifier lists element-wise; a strict prefix ranks lower. -/
def cmpIdList : List String → List String → Ordering
  | [], [] => Ordering.eq
  | [], _ :: _ => Ordering.lt
  | _ :: _, [] => Ordering.gt
  | x :: xs, y :: ys =>
    match cmpPreId x y with
    | Ordering.eq => cmpIdList xs ys
    | o => o

/-- Compare prerelease parts: a release (no prerelease) ranks above any
prerelease of the same core version. -/
def cmpPre (a b : List String) : Ordering :=
  match a, b with
  | [], [] => Ordering.eq
  | [], _ :: _ => Ordering.gt
  | _ :: _, [] => Ordering.lt
  | _, _ => cmpIdList a b

/-- SemVer precedence comparison. -/
def Semver.comp (a b : Semver) : Ordering :=
  (compare a.major b.major).then ((compare a.minor b.minor).then
    ((compare a.patch b.patch).then (cmpPre a.pre b.pre)))

/-- Strict order `installed_version < latest_version`. -/
def Semver.lt (a b : Semver) : Bool := a.comp b == Ordering.lt

/-- `trim_start_matches(|c: char| !c.is_ascii_digit())`: drop every leading
character that is not an ASCII digit. -/
def stripLeadingNonDigits (s : String) : String :=
  String.mk (s.toList.dropWhile (fun c => !c.isDigit))

/-! ## JSON values

A JSON value as produced by the external JSON library (`serde_json::Value`);
the manifest-reading code inspects such values with `.get` and `.as_str`. -/

inductive Json where
  | null
  | bool (b : Bool)
  | num (n : Int)
  | str (s : String)
  | arr (elems : List Json)
  | obj (fields : List (String × Json))

/-- `Value::get(key)`: key lookup on an object, `None` on any other value. -/
def Json.get (j : Json) (key : String) : Option Json :=
  match j with
  | Json.obj fields => (fields.find? (fun f => f.1 == key)).map (fun f => f.2)
  | _ => none

/-- `Value::as_str`: the string payload of a string value. -/
def Json.asStr (j : Json) : Option String :=
  match j with
  | Json.str s => some s
  | _ => none

/-! ## Upgrade-need evaluator: `should_install_npm_package`

The two filesystem effects of the trait's default method are passed in as an
environment: whether `fs::metadata(local_executable_path)` succeeds, and the
result of opening/reading/JSON-parsing `package.json` (`none` when the file
cannot be opened or its contents are not valid JSON). -/

structure PackageEnv where
  exec_exists : Bool
  manifest : Option Json

/-- The `dependencies[package_name]` string entry of a parsed manifest. -/
def dependencyEntry (package_json : Json) (package_name : String) : Option String :=
  ((package_json.get "dependencies").bind (fun deps => deps.get package_name)).bind Json.asStr

/-- `NodeRuntime::should_install_npm_package` (trait default method). -/
def should_install_npm_package (env : PackageEnv) (package_name : String)
    (latest_version : String) : Bool :=
  if !env.exec_exists then true
  else
    match env.manifest with
    | none => true
    | some package_json =>
      match dependencyEntry package_json package_name with
      | none => true
      | some installed_version =>
        match Semver.parse latest_version with
        | none => true
        | some latest =>
          match Semver.parse (stripLeadingNonDigits installed_version) with
          | none => true
          | some installed => installed.lt latest

/-! ## Platform resolver -/

/-- The `consts::OS` match in `install_if_needed`. -/
def osLabel : String → Except String String
  | "macos" => Except.ok "darwin"
  | "linux" => Except.ok "linux"
  | "windows" => Except.ok "win"
  | other => Except.error ("Running on unsupported os: " ++ other)

/-- The `consts::ARCH` match in `install_if_needed`. -/
def archLabel : String → Except String String
  | "x86_64" => Except.ok "x64"
  | "aarch64" => Except.ok "arm64"
  | other => Except.error ("Running on unsupported architecture: " ++ other)

/-- `format!("node-{VERSION}-{os}-{arch}")`. -/
def folderName (os arch : String) : String :=
  "node-" ++ VERSION ++ "-" ++ os ++ "-" ++ arch

/-- The fixed distribution URL
`https://nodejs.org/dist/{VERSION}/node-{VERSION}-{os}-{arch}.tar.gz`. -/
def downloadUrl (os arch : String) : String :=
  "https://nodejs.org/dist/" ++ VERSION ++ "/" ++ folderName os arch ++ ".tar.gz"

/-! ## Installation manager: `install_if_needed`

Effects are recorded as an ordered event trace.  The `unpack` event stands
for the gzip-decode + tar-extract pipeline (`GzipDecoder` + `Archive.unpack`)
into its destination directory; the external capabilities' outcomes (health
subprocess, directory creation, HTTP fetch, extraction) are supplied by the
environment. -/

inductive FsEvent where
  | healthCheck
  | removeDirAll (path : String)
  | createDir (path : String)
  | httpGet (url : String)
  | unpack (dest : String)
  | writeFile (path : String)
deriving DecidableEq, Repr

/-- The environment of one `install_if_needed` run: the host constants, the
support directory, and the outcomes the external world would give to each
effect.  `health_result` is the `.status()` result of the health-check
subprocess: `none` for a spawn error, `some b` for an exit with success
flag `b`. -/
structure InstallEnv where
  os_const : String
  arch_const : String
  support_dir : String
  health_result : Option Bool
  create_dir_result : Except String Unit
  fetch_result : Except String Unit
  unpack_result : Except String Unit

/-- The best-effort repair step run on every non-error exit: create the cache
directory and the two blank config files, ignoring errors. -/
def repairEvents (node_dir : String) : List FsEvent :=
  [FsEvent.createDir (pjoin node_dir "cache"),
   FsEvent.writeFile (pjoin node_dir "blank_user_npmrc"),
   FsEvent.writeFile (pjoin node_dir "blank_global_npmrc")]

/-- `RealNodeRuntime::install_if_needed` (body under the installation lock):
platform resolution, health check, conditional wipe + download + extraction,
unconditional repair, returning the deterministic installation path.  Returns
the result together with the ordered effect trace. -/
def install_if_needed (env : InstallEnv) : Except String String × List FsEvent :=
  match osLabel env.os_const with
  | Except.error e => (Except.error e, [])
  | Except.ok os =>
    match archLabel env.arch_const with
    | Except.error e => (Except.error e, [])
    | Except.ok arch =>
      let node_containing_dir := pjoin env.support_dir "node"
      let node_dir := pjoin node_containing_dir (folderName os arch)
      if env.health_result = some true then
        (Except.ok node_dir, FsEvent.healthCheck :: repairEvents node_dir)
      else
        let ev1 := [FsEvent.healthCheck, FsEvent.removeDirAll node_containing_dir,
                    FsEvent.createDir node_containing_dir]
        match env.create_dir_result with
        | Except.error _ => (Except.error "error creating node containing dir", ev1)
        | Except.ok _ =>
          let ev2 := ev1 ++ [FsEvent.httpGet (downloadUrl os arch)]
          match env.fetch_result with
          | Except.error _ => (Except.error "error downloading Node binary tarball", ev2)
          | Except.ok _ =>
            let ev3 := ev2 ++ [FsEvent.unpack node_containing_dir]
            match env.unpack_result with
            | Except.error e => (Except.error e, ev3)
            | Except.ok _ => (Except.ok node_dir, ev3 ++ repairEvents node_dir)

/-! ## Subcommand invoker: `run_npm_subcommand` -/

/-- Captured output of a finished child process (`std::process::Output`). -/
structure Output where
  status_success : Bool
  stdout : String
  stderr : String
deriving DecidableEq, Repr

/-- The generic error produced when both attempts fail:
`failed to launch npm subcommand {subcommand} subcommand`. -/
def launchErrorMsg (subcommand : String) : String :=
  "failed to launch npm subcommand " ++ subcommand ++ " subcommand"

/-- The command-failure error for a non-zero exit, carrying both captured
streams. -/
def commandErrorMsg (subcommand stdout stderr : String) : String :=
  "failed to execute npm " ++ subcommand ++ " subcommand:\nstdout: " ++
    stdout ++ "\nstderr: " ++ stderr

/-- `RealNodeRuntime::run_npm_subcommand`'s retry/classification logic.
`attempts n` is the result the n-th execution of the closure `attempt` would
produce (`ensure_installed`, the missing-binary checks, and the spawn, all
folded into one `Except`).  Returns the overall result together with how many
attempts were executed. -/
def run_npm_subcommand (subcommand : String) (attempts : Nat → Except String Output) :
    Except String Output × Nat :=
  let (output, count) :=
    match attempts 0 with
    | Except.ok o => ((Except.ok o : Except String Output), 1)
    | Except.error _ =>
      match attempts 1 with
      | Except.ok o => ((Except.ok o : Except String Output), 2)
      | Except.error _ =>
        ((Except.error (launchErrorMsg subcommand) : Except String Output), 2)
  match output with
  | Except.ok o =>
    if o.status_success then (Except.ok o, count)
    else (Except.error (commandErrorMsg subcommand o.stdout o.stderr), count)
  | Except.error e => (Except.error e, count)

/-! ## Child-command construction inside one attempt -/

/-- A fully built child process invocation: program, arguments, the explicit
environment (after `env_clear`), and the working directory. -/
structure ChildCommand where
  program : String
  args : List String
  env : List (String × String)
  cwd : Option String
deriving DecidableEq, Repr

/-- `std::env::var_os(name)` over an ambient environment modelled as an
association list. -/
def var_os (ambient : List (String × String)) (name : String) : Option String :=
  (ambient.find? (fun p => p.1 == name)).map (fun p => p.2)

/-- The reconstructed PATH value: the installation's bin directory, with the
inherited PATH appended after a ":" only when it exists and is non-empty. -/
def npmEnvPath (installation_path : String) (ambient : List (String × String)) : String :=
  let base := pjoin installation_path "bin"
  match var_os ambient "PATH" with
  | none => base
  | some existing => if existing.isEmpty then base else base ++ ":" ++ existing

/-- The child command built by one attempt of `run_npm_subcommand` (source
lines 194-231): cleared environment with only the reconstructed PATH, the
interpreter + npm script + subcommand + the fixed config-flag trio + caller
arguments, and the optional working directory with its `--prefix` flag. -/
def build_npm_command (installation_path : String) (ambient : List (String × String))
    (directory : Option String) (subcommand : String) (args : List String) : ChildCommand :=
  { program := pjoin installation_path "bin/node"
    args :=
      [pjoin installation_path "bin/npm", subcommand,
       "--cache", pjoin installation_path "cache",
       "--userconfig", pjoin installation_path "blank_user_npmrc",
       "--globalconfig", pjoin installation_path "blank_global_npmrc"]
      ++ args
      ++ (match directory with
          | some d => ["--prefix", d]
          | none => [])
    env := [("PATH", npmEnvPath installation_path ambient)]
    cwd := directory }

/-! ## Package metadata client: `npm_package_latest_version` -/

/-- `NpmInfoDistTags`: the optional "latest" distribution tag. -/
structure NpmInfoDistTags where
  latest : Option String
deriving DecidableEq, Repr

/-- `NpmInfo`: parsed registry metadata. -/
structure NpmInfo where
  dist_tags : NpmInfoDistTags
  versions : List String
deriving DecidableEq, Repr

/-- Deserialize one element of `versions` (must be a JSON string). -/
def deserializeVersionList : List Json → Option (List String)
  | [] => some []
  | j :: rest => do
    let s ← j.asStr
    let tail ← deserializeVersionList rest
    some (s :: tail)

/-- The derived deserializer of `NpmInfoDistTags` applied to a JSON value:
an object whose optional "latest" field is a string or null. -/
def NpmInfoDistTags.deserialize (j : Json) : Option NpmInfoDistTags :=
  match j with
  | Json.obj _ =>
    match j.get "latest" with
    | none => some ⟨none⟩
    | some Json.null => some ⟨none⟩
    | some (Json.str s) => some ⟨some s⟩
    | some _ => none
  | _ => none

/-- The derived deserializer of `NpmInfo` applied to a JSON value: the
kebab-case field "dist-tags" defaults when absent, "versions" is a required
array of strings; unknown fields are ignored. -/
def NpmInfo.deserialize (j : Json) : Option NpmInfo :=
  match j with
  | Json.obj _ => do
    let dist_tags ←
      match j.get "dist-tags" with
      | none => some ({ latest := none } : NpmInfoDistTags)
      | some dt => NpmInfoDistTags.deserialize dt
    let versions ←
      match j.get "versions" with
      | some (Json.arr elems) => deserializeVersionList elems
      | _ => none
    some ⟨dist_tags, versions⟩
  | _ => none

/-- The selection logic of `npm_package_latest_version` after deserializing
the registry payload: `info.dist_tags.latest.or_else(|| info.versions.pop())`
with the "no version found" error. -/
def npm_latest_from_info (name : String) (info : NpmInfo) : Except String String :=
  match info.dist_tags.latest with
  | some v => Except.ok v
  | none =>
    match info.versions.getLast? with
    | some v => Except.ok v
    | none => Except.error ("no version found for npm package " ++ name)

/-! ## Fake runtime (test double) -/

/-- The outcome of calling a fake-runtime method: a value, or a panic raised
by `unreachable!`. -/
inductive FakeOutcome (α : Type) where
  | value (a : α)
  | panicked (msg : String)
deriving Repr

/-- Whether an outcome is a panic. -/
def FakeOutcome.isPanicked {α : Type} : FakeOutcome α → Bool
  | FakeOutcome.panicked _ => true
  | FakeOutcome.value _ => false

/-- The `NodeRuntime` trait as a record of method implementations.  The
`should_install` field carries the trait's default method body as its
default value; an implementation that does not override it gets exactly
that body. -/
structure NodeRuntimeOps where
  binary_path : Unit → FakeOutcome String
  run_npm : Option String → String → List String → FakeOutcome Output
  npm_package_latest_version : String → FakeOutcome String
  npm_install_packages : String → List (String × String) → FakeOutcome Unit
  should_install : PackageEnv → String → String → Bool :=
    fun env package_name latest_version =>
      should_install_npm_package env package_name latest_version

/-- Rust's Debug rendering of a string list, as interpolated by the fake's
panic messages. -/
def debugStrList (args : List String) : String :=
  "[" ++ String.intercalate ", " (args.map (fun a => "\"" ++ a ++ "\"")) ++ "]"

/-- `FakeNodeRuntime`: every overridden method panics via `unreachable!`;
`should_install` is not overridden, so the field keeps the trait default. -/
def FakeNodeRuntime : NodeRuntimeOps :=
  { binary_path := fun _ => FakeOutcome.panicked "internal error: entered unreachable code"
    run_npm := fun _ subcommand args =>
      FakeOutcome.panicked ("internal error: entered unreachable code: " ++
        "Should not run npm subcommand '" ++ subcommand ++ "' with args " ++ debugStrList args)
    npm_package_latest_version := fun name =>
      FakeOutcome.panicked ("internal error: entered unreachable code: " ++
        "Should not query npm package '" ++ name ++ "' for latest version")
    npm_install_packages := fun _ packages =>
      FakeOutcome.panicked ("internal error: entered unreachable code: " ++
        "Should not install packages " ++ debugStrList (packages.map (fun p => p.1))) }

/-! ## Installation gate: serialization of provisioning

Modelled from the spec: the async mutex (`smol::lock::Mutex`) guarding
`install_if_needed` is an external dependency, so its semantics — at most
one holder, others wait — are modelled as a labelled transition system.
Each caller of `ensure_installed` runs: acquire the gate, health-check the
shared installation state, download + extract only when the check failed,
then release with the deterministic path as its result.  The download and
the check are separate steps, so serialization is proved, not assumed at
the granularity of whole critical sections. -/

inductive Phase where
  | idle
  | locked
  | needsInstall
  | ready
  | done (path : String)
deriving DecidableEq, Repr

/-- The shared state: the gate holder, whether a healthy installation is on
disk, how many archive downloads have run, and each caller's phase. -/
structure GateState where
  lockHeld : Option Nat
  installed : Bool
  downloads : Nat
  threads : Nat → Phase

/-- A caller's phase while it is inside the gated provisioning sequence. -/
def Phase.inGate : Phase → Bool
  | Phase.locked => true
  | Phase.needsInstall => true
  | Phase.ready => true
  | _ => false

/-- Update one caller's phase. -/
def setPhase (threads : Nat → Phase) (i : Nat) (p : Phase) : Nat → Phase :=
  fun j => if j = i then p else threads j

/-- One step of the gated provisioning protocol, parameterized by the
deterministic installation path every completed call returns. -/
inductive GateStep (path : String) : GateState → GateState → Prop where
  | acquire (s : GateState) (i : Nat)
      (hl : s.lockHeld = none) (hp : s.threads i = Phase.idle) :
      GateStep path s { s with lockHeld := some i, threads := setPhase s.threads i Phase.locked }
  | checkGood (s : GateState) (i : Nat)
      (hl : s.lockHeld = some i) (hp : s.threads i = Phase.locked)
      (hi : s.installed = true) :
      GateStep path s { s with threads := setPhase s.threads i Phase.ready }
  | checkBad (s : GateState) (i : Nat)
      (hl : s.lockHeld = some i) (hp : s.threads i = Phase.locked)
      (hi : s.installed = false) :
      GateStep path s { s with threads := setPhase s.threads i Phase.needsInstall }
  | download (s : GateState) (i : Nat)
      (hl : s.lockHeld = some i) (hp : s.threads i = Phase.needsInstall) :
      GateStep path s { s with installed := true, downloads := s.downloads + 1,
                               threads := setPhase s.threads i Phase.ready }
  | release (s : GateState) (i : Nat)
      (hl : s.lockHeld = some i) (hp : s.threads i = Phase.ready) :
      GateStep path s { s with lockHeld := none,
                               threads := setPhase s.threads i (Phase.done path) }

/-- Cold start: gate free, nothing installed, no downloads, all callers idle. -/
def coldStart : GateState :=
  { lockHeld := none, installed := false, downloads := 0, threads := fun _ => Phase.idle }

/-- Reachability under the protocol. -/
inductive GateReach (path : String) : GateState → Prop where
  | init : GateReach path coldStart
  | step {s t : GateState} : GateReach path s → GateStep path s t → GateReach path t

/-- The inductive invariant: gate-internal phases exist only for the unique
holder, download accounting is tied to the installed flag, a caller mid
`needsInstall` saw the failed check, completed callers all carry the
deterministic path, and completion implies a healthy installation. -/
def GateInv (path : String) (s : GateState) : Prop :=
  (∀ i, (s.threads i).inGate = true → s.lockHeld = some i) ∧
  (s.downloads = if s.installed then 1 else 0) ∧
  (∀ i, s.threads i = Phase.needsInstall → s.installed = false) ∧
  (∀ i p, s.threads i = Phase.done p → p = path) ∧
  (∀ i, s.threads i = Phase.ready → s.installed = true) ∧
  (∀ i p, s.threads i = Phase.done p → s.installed = true)

/-- The invariant holds at cold start. -/
theorem gateInv_cold (path : String) : GateInv path coldStart := by
  refine ⟨?_, ?_, ?_, ?_, ?_, ?_⟩ <;> intros <;> simp_all [coldStart, Phase.inGate]

/-- One protocol step preserves the invariant. -/
theorem gateInv_preserved {path : String} {s t : GateState}
    (hs : GateInv path s) (hstep : GateStep path s t) : GateInv path t := by
  obtain ⟨h1, h2, h3, h4, h5, h6⟩ := hs
  cases hstep with
  | acquire i hl hp =>
    refine ⟨?_, h2, ?_, ?_, ?_, ?_⟩
    · intro j hj
      by_cases hji : j = i
      · subst hji; rfl
      · simp only [setPhase, if_neg hji] at hj
        have := h1 j hj
        rw [hl] at this
        exact Option.noConfusion this
    · intro j hj
      by_cases hji : j = i
      · subst hji; simp [setPhase] at hj
      · simp only [setPhase, if_neg hji] at hj
        exact h3 j hj
    · intro j p hj
      by_cases hji : j = i
      · subst hji; simp [setPhase] at hj
      · simp only [setPhase, if_neg hji] at hj
        exact h4 j p hj
    · intro j hj
      by_cases hji : j = i
      · subst hji; simp [setPhase] at hj
      · simp only [setPhase, if_neg hji] at hj
        exact h5 j hj
    · intro j p hj
      by_cases hji : j = i
      · subst hji; simp [setPhase] at hj
      · simp only [setPhase, if_neg hji] at hj
        exact h6 j p hj
  | checkGood i hl hp hi =>
    refine ⟨?_, h2, ?_, ?_, ?_, ?_⟩
    · intro j hj
      by_cases hji : j = i
      · subst hji; exact hl
      · simp only [setPhase, if_neg hji] at hj
        exact h1 j hj
    · intro j hj
      by_cases hji : j = i
      · subst hji; simp [setPhase] at hj
      · simp only [setPhase, if_neg hji] at hj
        exact h3 j hj
    · intro j p hj
      by_cases hji : j = i
      · subst hji; simp [setPhase] at hj
      · simp only [setPhase, if_neg hji] at hj
        exact h4 j p hj
    · intro j hj
      exact hi
    · intro j p hj
      by_cases hji : j = i
      · subst hji; simp [setPhase] at hj
      · simp only [setPhase, if_neg hji] at hj
        exact h6 j p hj
  | checkBad i hl hp hi =>
    refine ⟨?_, h2, ?_, ?_, ?_, ?_⟩
    · intro j hj
      by_cases hji : j = i
      · subst hji; exact hl
      · simp only [setPhase, if_neg hji] at hj
        exact h1 j hj
    · intro j hj
      exact hi
    · intro j p hj
      by_cases hji : j = i
      · subst hji; simp [setPhase] at hj
      · simp only [setPhase, if_neg hji] at hj
        exact h4 j p hj
    · intro j hj
      by_cases hji : j = i
      · subst hji; simp [setPhase] at hj
      · simp only [setPhase, if_neg hji] at hj
        exact h5 j hj
    · intro j p hj
      by_cases hji : j = i
      · subst hji; simp [setPhase] at hj
      · simp only [setPhase, if_neg hji] at hj
        exact h6 j p hj
  | download i hl hp =>
    have hinst : s.installed = false := h3 i hp
    have hdl : s.downloads = 0 := by rw [h2, hinst]; rfl
    refine ⟨?_, ?_, ?_, ?_, ?_, ?_⟩
    · intro j hj
      by_cases hji : j = i
      · subst hji; exact hl
      · simp only [setPhase, if_neg hji] at hj
        exact h1 j hj
    · simp [hdl]
    · intro j hj
      by_cases hji : j = i
      · subst hji; simp [setPhase] at hj
      · simp only [setPhase, if_neg hji] at hj
        have := h1 j (by rw [hj]; rfl)
        rw [hl] at this
        exact absurd (Option.some.inj this).symm hji
    · intro j p hj
      by_cases hji : j = i
      · subst hji; simp [setPhase] at hj
      · simp only [setPhase, if_neg hji] at hj
        exact h4 j p hj
    · intro j hj
      rfl
    · intro j p hj
      rfl
  | release i hl hp =>
    refine ⟨?_, h2, ?_, ?_, ?_, ?_⟩
    · intro j hj
      by_cases hji : j = i
      · subst hji; simp [setPhase, Phase.inGate] at hj
      · simp only [setPhase, if_neg hji] at hj
        have := h1 j hj
        rw [hl] at this
        exact absurd (Option.some.inj this).symm hji
    · intro j hj
      by_cases hji : j = i
      · subst hji; simp [setPhase] at hj
      · simp only [setPhase, if_neg hji] at hj
        exact h3 j hj
    · intro j p hj
      by_cases hji : j = i
      · subst hji; simp only [setPhase, if_pos rfl] at hj
        exact (Phase.done.inj hj).symm
      · simp only [setPhase, if_neg hji] at hj
        exact h4 j p hj
    · intro j hj
      by_cases hji : j = i
      · subst hji; simp [setPhase] at hj
      · simp only [setPhase, if_neg hji] at hj
        exact h5 j hj
    · intro j p hj
      by_cases hji : j = i
      · subst hji; exact h5 _ hp
      · simp only [setPhase, if_neg hji] at hj
        exact h6 j p hj

/-- Every reachable state satisfies the invariant. -/
theorem gateInv_reachable {path : String} {s : GateState} (h : GateReach path s) :
    GateInv path s := by
  induction h with
  | init => exact gateInv_cold path
  | step _ hstep ih => exact gateInv_preserved ih hstep

/-! ## Claim theorems -/

/-- C1: in `run_npm_subcommand`, an erroring first attempt causes exactly one
retry of the entire attempt; a launch error followed by a successful second
attempt returns the successful output; two erroring attempts return the
generic "failed to launch" error, a fixed string that discards the second
attempt's underlying error. -/
theorem c1_run_npm_retry (subcommand : String) (attempts : Nat → Except String Output) :
    (∀ e, attempts 0 = Except.error e → (run_npm_subcommand subcommand attempts).2 = 2) ∧
    (∀ o, attempts 0 = Except.ok o → (run_npm_subcommand subcommand attempts).2 = 1) ∧
    (∀ e o, attempts 0 = Except.error e → attempts 1 = Except.ok o →
      o.status_success = true →
      (run_npm_subcommand subcommand attempts).1 = Except.ok o) ∧
    (∀ e e2, attempts 0 = Except.error e → attempts 1 = Except.error e2 →
      (run_npm_subcommand subcommand attempts).1 =
        Except.error (launchErrorMsg subcommand)) := by
  refine ⟨?_, ?_, ?_, ?_⟩
  · intro e h0
    cases h1 : attempts 1 with
    | error e2 => simp [run_npm_subcommand, h0, h1]
    | ok o =>
      by_cases hs : o.status_success <;> simp [run_npm_subcommand, h0, h1, hs]
  · intro o h0
    by_cases hs : o.status_success <;> simp [run_npm_subcommand, h0, hs]
  · intro e o h0 h1 hs
    simp [run_npm_subcommand, h0, h1, hs]
  · intro e e2 h0 h1
    simp [run_npm_subcommand, h0, h1]

/-- The attempt results used by the C1 witness: the first launch fails, the
second succeeds with a zero exit status. -/
def c1Attempts : Nat → Except String Output :=
  fun n => match n with
  | 0 => Except.error "spawn failed"
  | _ => Except.ok ⟨true, "9.5.0", ""⟩

theorem c1_run_npm_retry_witness :
    (run_npm_subcommand "install" c1Attempts).1 = Except.ok ⟨true, "9.5.0", ""⟩ ∧
    (run_npm_subcommand "install" c1Attempts).2 = 2 :=
  have h := c1_run_npm_retry "install" c1Attempts
  ⟨h.2.2.1 "spawn failed" ⟨true, "9.5.0", ""⟩ rfl rfl rfl, h.1 "spawn failed" rfl⟩

/-- C2: `should_install_npm_package` returns true when the executable is
absent, the manifest cannot be opened/read or is not valid JSON, the
dependencies entry is absent or not a string, the latest version does not
parse, or the installed version (leading non-digits stripped) does not
parse; otherwise it returns exactly the strict-order comparison of the
parsed installed version against the parsed latest version. -/
theorem c2_should_install (env : PackageEnv) (name latest : String) :
    (env.exec_exists = false → should_install_npm_package env name latest = true) ∧
    (env.manifest = none → should_install_npm_package env name latest = true) ∧
    (∀ pj, env.manifest = some pj → dependencyEntry pj name = none →
      should_install_npm_package env name latest = true) ∧
    (∀ pj v, env.manifest = some pj → dependencyEntry pj name = some v →
      Semver.parse latest = none → should_install_npm_package env name latest = true) ∧
    (∀ pj v, env.manifest = some pj → dependencyEntry pj name = some v →
      Semver.parse (stripLeadingNonDigits v) = none →
      should_install_npm_package env name latest = true) ∧
    (∀ pj v lv iv, env.exec_exists = true → env.manifest = some pj →
      dependencyEntry pj name = some v → Semver.parse latest = some lv →
      Semver.parse (stripLeadingNonDigits v) = some iv →
      should_install_npm_package env name latest = iv.lt lv) := by
  refine ⟨?_, ?_, ?_, ?_, ?_, ?_⟩
  · intro hex
    simp [should_install_npm_package, hex]
  · intro hm
    simp [should_install_npm_package, hm]
  · intro pj hm hdep
    simp [should_install_npm_package, hm, hdep]
  · intro pj v hm hdep hl
    simp [should_install_npm_package, hm, hdep, hl]
  · intro pj v hm hdep hi
    cases hl : Semver.parse latest <;>
      simp [should_install_npm_package, hm, hdep, hl, hi]
  · intro pj v lv iv hex hm hdep hl hi
    simp [should_install_npm_package, hex, hm, hdep, hl, hi]

/-- The manifest of the C2 witness: `dependencies.pkg = "^1.0.0"`. -/
def c2Manifest : Json :=
  Json.obj [("dependencies", Json.obj [("pkg", Json.str "^1.0.0")])]

theorem c2_should_install_witness :
    should_install_npm_package ⟨true, some c2Manifest⟩ "pkg" "1.2.0" = true :=
  ((c2_should_install ⟨true, some c2Manifest⟩ "pkg" "1.2.0").2.2.2.2.2
      c2Manifest "^1.0.0" ⟨1, 2, 0, [], []⟩ ⟨1, 0, 0, [], []⟩
      rfl rfl rfl (by decide) (by decide)).trans (by decide)

/-- C3: the latest-version selection over a parsed `NpmInfo` payload returns
the "latest" dist-tag when present, else the last entry of the versions
sequence, else a "no version found" error naming the package. -/
theorem c3_npm_latest (name : String) (info : NpmInfo) :
    (∀ v, info.dist_tags.latest = some v → npm_latest_from_info name info = Except.ok v) ∧
    (∀ v, info.dist_tags.latest = none → info.versions.getLast? = some v →
      npm_latest_from_info name info = Except.ok v) ∧
    (info.dist_tags.latest = none → info.versions = [] →
      npm_latest_from_info name info =
        Except.error ("no version found for npm package " ++ name)) := by
  refine ⟨?_, ?_, ?_⟩
  · intro v hv
    simp [npm_latest_from_info, hv]
  · intro v hn hl
    simp [npm_latest_from_info, hn, hl]
  · intro hn he
    simp [npm_latest_from_info, hn, he]

/-- The registry payloads of the C3 witness. -/
def c3Payload1 : Json :=
  Json.obj [("dist-tags", Json.obj [("latest", Json.str "3.0.0")]),
            ("versions", Json.arr [Json.str "1.0.0", Json.str "3.0.0"])]

def c3Payload2 : Json :=
  Json.obj [("dist-tags", Json.obj []),
            ("versions", Json.arr [Json.str "1.0.0", Json.str "2.0.0"])]

def c3Payload3 : Json :=
  Json.obj [("dist-tags", Json.obj []), ("versions", Json.arr [])]

theorem c3_npm_latest_witness :
    NpmInfo.deserialize c3Payload1 = some ⟨⟨some "3.0.0"⟩, ["1.0.0", "3.0.0"]⟩ ∧
    npm_latest_from_info "pkg" ⟨⟨some "3.0.0"⟩, ["1.0.0", "3.0.0"]⟩ = Except.ok "3.0.0" ∧
    NpmInfo.deserialize c3Payload2 = some ⟨⟨none⟩, ["1.0.0", "2.0.0"]⟩ ∧
    npm_latest_from_info "pkg" ⟨⟨none⟩, ["1.0.0", "2.0.0"]⟩ = Except.ok "2.0.0" ∧
    NpmInfo.deserialize c3Payload3 = some ⟨⟨none⟩, []⟩ ∧
    npm_latest_from_info "pkg" ⟨⟨none⟩, []⟩ =
      Except.error "no version found for npm package pkg" :=
  ⟨by decide,
   (c3_npm_latest "pkg" ⟨⟨some "3.0.0"⟩, ["1.0.0", "3.0.0"]⟩).1 "3.0.0" rfl,
   by decide,
   (c3_npm_latest "pkg" ⟨⟨none⟩, ["1.0.0", "2.0.0"]⟩).2.1 "2.0.0" rfl rfl,
   by decide,
   ((c3_npm_latest "pkg" ⟨⟨none⟩, []⟩).2.2 rfl rfl).trans
     (congrArg Except.error (by decide))⟩

/-- C7: the platform resolver maps the three supported OS identifiers and two
supported architecture identifiers to their vendor labels, and fails on any
other identifier with an error carrying the raw identifier. -/
theorem c7_platform_resolver :
    osLabel "macos" = Except.ok "darwin" ∧
    osLabel "linux" = Except.ok "linux" ∧
    osLabel "windows" = Except.ok "win" ∧
    archLabel "x86_64" = Except.ok "x64" ∧
    archLabel "aarch64" = Except.ok "arm64" ∧
    (∀ s, s ≠ "macos" → s ≠ "linux" → s ≠ "windows" →
      osLabel s = Except.error ("Running on unsupported os: " ++ s)) ∧
    (∀ s, s ≠ "x86_64" → s ≠ "aarch64" →
      archLabel s = Except.error ("Running on unsupported architecture: " ++ s)) := by
  refine ⟨rfl, rfl, rfl, rfl, rfl, ?_, ?_⟩
  · intro s h1 h2 h3
    simp [osLabel, h1, h2, h3]
  · intro s h1 h2
    simp [archLabel, h1, h2]

theorem c7_platform_resolver_witness :
    osLabel "freebsd" = Except.error "Running on unsupported os: freebsd" ∧
    archLabel "riscv64" = Except.error "Running on unsupported architecture: riscv64" :=
  ⟨(c7_platform_resolver.2.2.2.2.2.1 "freebsd" (by decide) (by decide) (by decide)).trans
      (congrArg Except.error (by decide)),
   (c7_platform_resolver.2.2.2.2.2.2 "riscv64" (by decide) (by decide)).trans
      (congrArg Except.error (by decide))⟩

/-- C4: when the health-check subprocess exits with status zero, no fetch,
no deletion and no extraction occur, and the pre-existing deterministic
installation path is returned. -/
theorem c4_healthy_no_fetch (env : InstallEnv) (os arch : String)
    (hos : osLabel env.os_const = Except.ok os)
    (harch : archLabel env.arch_const = Except.ok arch)
    (hh : env.health_result = some true) :
    (install_if_needed env).1 =
      Except.ok (pjoin (pjoin env.support_dir "node") (folderName os arch)) ∧
    (∀ u, FsEvent.httpGet u ∉ (install_if_needed env).2) ∧
    (∀ p, FsEvent.removeDirAll p ∉ (install_if_needed env).2) ∧
    (∀ p, FsEvent.unpack p ∉ (install_if_needed env).2) := by
  simp only [install_if_needed, hos, harch]
  rw [if_pos hh]
  simp [repairEvents]

/-- The C4 witness environment: healthy installation on a Linux x86-64 host. -/
def c4Env : InstallEnv :=
  ⟨"linux", "x86_64", "/sup", some true, Except.ok (), Except.ok (), Except.ok ()⟩

theorem c4_healthy_no_fetch_witness :
    (install_if_needed c4Env).1 = Except.ok "/sup/node/node-v18.15.0-linux-x64" ∧
    FsEvent.httpGet (downloadUrl "linux" "x64") ∉ (install_if_needed c4Env).2 :=
  have h := c4_healthy_no_fetch c4Env "linux" "x64" rfl rfl rfl
  ⟨h.1.trans (congrArg Except.ok (by decide)), h.2.1 (downloadUrl "linux" "x64")⟩

/-- C5: when the health check fails, the containing installations directory
is deleted and recreated before anything else, the archive is fetched from
the fixed URL and extracted into the containing directory, directory-creation
and fetch and extraction failures each propagate, and at most one fetch is
ever issued. -/
theorem c5_unhealthy_reinstall (env : InstallEnv) (os arch : String)
    (hos : osLabel env.os_const = Except.ok os)
    (harch : archLabel env.arch_const = Except.ok arch)
    (hh : env.health_result ≠ some true) :
    ((install_if_needed env).2.take 3 =
      [FsEvent.healthCheck,
       FsEvent.removeDirAll (pjoin env.support_dir "node"),
       FsEvent.createDir (pjoin env.support_dir "node")]) ∧
    (∀ e, env.create_dir_result = Except.error e →
      (install_if_needed env).1 = Except.error "error creating node containing dir" ∧
      (∀ u, FsEvent.httpGet u ∉ (install_if_needed env).2) ∧
      (∀ p, FsEvent.unpack p ∉ (install_if_needed env).2)) ∧
    (env.create_dir_result = Except.ok () →
      (install_if_needed env).2.take 4 =
        [FsEvent.healthCheck,
         FsEvent.removeDirAll (pjoin env.support_dir "node"),
         FsEvent.createDir (pjoin env.support_dir "node"),
         FsEvent.httpGet (downloadUrl os arch)]) ∧
    (∀ e, env.create_dir_result = Except.ok () → env.fetch_result = Except.error e →
      (install_if_needed env).1 = Except.error "error downloading Node binary tarball" ∧
      (∀ p, FsEvent.unpack p ∉ (install_if_needed env).2)) ∧
    (env.create_dir_result = Except.ok () → env.fetch_result = Except.ok () →
      (install_if_needed env).2.take 5 =
        [FsEvent.healthCheck,
         FsEvent.removeDirAll (pjoin env.support_dir "node"),
         FsEvent.createDir (pjoin env.support_dir "node"),
         FsEvent.httpGet (downloadUrl os arch),
         FsEvent.unpack (pjoin env.support_dir "node")]) ∧
    (∀ e, env.create_dir_result = Except.ok () → env.fetch_result = Except.ok () →
      env.unpack_result = Except.error e →
      (install_if_needed env).1 = Except.error e) ∧
    (((install_if_needed env).2.filter (fun ev =>
        match ev with
        | FsEvent.httpGet _ => true
        | _ => false)).length ≤ 1) := by
  simp only [install_if_needed, hos, harch]
  rw [if_neg hh]
  cases hcd : env.create_dir_result with
  | error e0 => simp [repairEvents]
  | ok u =>
    cases u
    cases hf : env.fetch_result with
    | error e1 => simp [repairEvents]
    | ok v =>
      cases v
      cases hu : env.unpack_result with
      | error e2 => simp [repairEvents]
      | ok w => cases w; simp [repairEvents]

/-- The C5 witness environment: failed health check, all later steps
succeeding, on a macOS ARM host. -/
def c5Env : InstallEnv :=
  ⟨"macos", "aarch64", "/sup", some false, Except.ok (), Except.ok (), Except.ok ()⟩

theorem c5_unhealthy_reinstall_witness :
    (install_if_needed c5Env).2.take 5 =
      [FsEvent.healthCheck,
       FsEvent.removeDirAll "/sup/node",
       FsEvent.createDir "/sup/node",
       FsEvent.httpGet "https://nodejs.org/dist/v18.15.0/node-v18.15.0-darwin-arm64.tar.gz",
       FsEvent.unpack "/sup/node"] :=
  have h := c5_unhealthy_reinstall c5Env "darwin" "arm64" rfl rfl (by decide)
  (h.2.2.2.2.1 rfl rfl).trans (by decide)

/-- C6: every successful return of `install_if_needed` has appended the
repair events (cache directory, two blank config files) to its trace and
returns the deterministic path derived from the pinned version and the
resolved OS/architecture labels. -/
theorem c6_success_repair (env : InstallEnv) (os arch p : String)
    (hos : osLabel env.os_const = Except.ok os)
    (harch : archLabel env.arch_const = Except.ok arch)
    (h : (install_if_needed env).1 = Except.ok p) :
    p = pjoin (pjoin env.support_dir "node") (folderName os arch) ∧
    (install_if_needed env).2.drop ((install_if_needed env).2.length - 3) =
      repairEvents p := by
  simp only [install_if_needed, hos, harch] at h ⊢
  by_cases hh : env.health_result = some true
  · rw [if_pos hh] at h ⊢
    simp only [Except.ok.injEq] at h
    subst h
    exact ⟨rfl, rfl⟩
  · rw [if_neg hh] at h ⊢
    cases hcd : env.create_dir_result with
    | error e0 => rw [hcd] at h; simp at h
    | ok u =>
      cases u
      rw [hcd] at h
      cases hf : env.fetch_result with
      | error e1 => rw [hf] at h; simp at h
      | ok v =>
        cases v
        rw [hf] at h
        cases hu : env.unpack_result with
        | error e2 => rw [hu] at h; simp at h
        | ok w =>
          cases w
          rw [hu] at h
          simp only [Except.ok.injEq] at h
          subst h
          exact ⟨rfl, by simp [repairEvents]⟩

theorem c6_success_repair_witness :
    "/sup/node/node-v18.15.0-linux-x64" =
      pjoin (pjoin "/sup" "node") (folderName "linux" "x64") ∧
    (install_if_needed c4Env).2.drop ((install_if_needed c4Env).2.length - 3) =
      repairEvents "/sup/node/node-v18.15.0-linux-x64" :=
  c6_success_repair c4Env "linux" "x64" "/sup/node/node-v18.15.0-linux-x64" rfl rfl rfl

/-- C8: the child environment built by `run_npm_subcommand` contains only the
reconstructed PATH — the installation's bin directory, with the inherited
PATH appended after a ":" only when it exists and is non-empty — and for any
two ambient environments agreeing on PATH the built command is identical. -/
theorem c8_env_isolation (installation_path : String) (ambient : List (String × String))
    (directory : Option String) (subcommand : String) (args : List String) :
    (build_npm_command installation_path ambient directory subcommand args).env =
      [("PATH", npmEnvPath installation_path ambient)] ∧
    (var_os ambient "PATH" = none →
      npmEnvPath installation_path ambient = pjoin installation_path "bin") ∧
    (∀ p, var_os ambient "PATH" = some p → p.isEmpty = true →
      npmEnvPath installation_path ambient = pjoin installation_path "bin") ∧
    (∀ p, var_os ambient "PATH" = some p → p.isEmpty = false →
      npmEnvPath installation_path ambient = pjoin installation_path "bin" ++ ":" ++ p) ∧
    (∀ ambient2, var_os ambient "PATH" = var_os ambient2 "PATH" →
      build_npm_command installation_path ambient directory subcommand args =
        build_npm_command installation_path ambient2 directory subcommand args) := by
  refine ⟨rfl, ?_, ?_, ?_, ?_⟩
  · intro h
    simp [npmEnvPath, h]
  · intro p h he
    simp [npmEnvPath, h, he]
  · intro p h he
    simp [npmEnvPath, h, he]
  · intro ambient2 h
    simp [build_npm_command, npmEnvPath, h]

/-- The ambient environment of the C8 witness: a PATH and one unrelated
variable that must not leak into the child. -/
def c8Ambient : List (String × String) :=
  [("HOME", "/home/user"), ("PATH", "/usr/bin")]

theorem c8_env_isolation_witness :
    (build_npm_command "/ip" c8Ambient none "install" []).env =
      [("PATH", "/ip/bin:/usr/bin")] ∧
    build_npm_command "/ip" c8Ambient none "install" [] =
      build_npm_command "/ip" [("PATH", "/usr/bin")] none "install" [] :=
  have h := c8_env_isolation "/ip" c8Ambient none "install" []
  ⟨h.1.trans (by rw [h.2.2.2.1 "/usr/bin" rfl rfl]; decide),
   h.2.2.2.2 [("PATH", "/usr/bin")] rfl⟩

/-- C9: provisioning is serialized by the installation gate — in every state
reachable from a cold start by N concurrent callers, at most one caller is
inside the gated provisioning sequence, at most one archive download has
happened, and every completed caller received the same deterministic path
with exactly one download having occurred. -/
theorem c9_gate_serialization (path : String) (s : GateState) (h : GateReach path s) :
    (∀ i j, (s.threads i).inGate = true → (s.threads j).inGate = true → i = j) ∧
    s.downloads ≤ 1 ∧
    (∀ i p, s.threads i = Phase.done p → p = path ∧ s.downloads = 1) := by
  obtain ⟨h1, h2, h3, h4, h5, h6⟩ := gateInv_reachable h
  refine ⟨?_, ?_, ?_⟩
  · intro i j hi hj
    have hli := h1 i hi
    have hlj := h1 j hj
    rw [hli] at hlj
    exact Option.some.inj hlj
  · rw [h2]
    cases hins : s.installed <;> simp
  · intro i p hp
    refine ⟨h4 i p hp, ?_⟩
    rw [h2, h6 i p hp]
    rfl

/-- The intermediate states of the C9 witness execution: caller 0 provisions
cold (check fails, download, release), then caller 1 reuses the healthy
installation (check succeeds, release). -/
def demo1 : GateState :=
  { coldStart with lockHeld := some 0, threads := setPhase coldStart.threads 0 Phase.locked }

def demo2 : GateState :=
  { demo1 with threads := setPhase demo1.threads 0 Phase.needsInstall }

def demo3 : GateState :=
  { demo2 with installed := true, downloads := demo2.downloads + 1,
               threads := setPhase demo2.threads 0 Phase.ready }

def demo4 : GateState :=
  { demo3 with lockHeld := none, threads := setPhase demo3.threads 0 (Phase.done "demo") }

def demo5 : GateState :=
  { demo4 with lockHeld := some 1, threads := setPhase demo4.threads 1 Phase.locked }

def demo6 : GateState :=
  { demo5 with threads := setPhase demo5.threads 1 Phase.ready }

def demo7 : GateState :=
  { demo6 with lockHeld := none, threads := setPhase demo6.threads 1 (Phase.done "demo") }

theorem c9_gate_serialization_witness :
    demo7.downloads = 1 ∧ demo7.threads 0 = Phase.done "demo" ∧
    demo7.threads 1 = Phase.done "demo" :=
  have hreach : GateReach "demo" demo7 :=
    GateReach.step
      (GateReach.step
        (GateReach.step
          (GateReach.step
            (GateReach.step
              (GateReach.step
                (GateReach.step GateReach.init (GateStep.acquire coldStart 0 rfl rfl))
                (GateStep.checkBad demo1 0 rfl rfl rfl))
              (GateStep.download demo2 0 rfl rfl))
            (GateStep.release demo3 0 rfl rfl))
          (GateStep.acquire demo4 1 rfl rfl))
        (GateStep.checkGood demo5 1 rfl rfl rfl))
      (GateStep.release demo6 1 rfl rfl)
  ⟨((c9_gate_serialization "demo" demo7 hreach).2.2 0 "demo" rfl).2, rfl, rfl⟩

/-- C10: on the fake runtime, the four overridden operations panic
unconditionally on every input, while `should_install` is not overridden and
remains the trait's default filesystem-reading upgrade decision. -/
theorem c10_fake_runtime (u : Unit) (d : Option String) (sub : String) (args : List String)
    (name dir : String) (pkgs : List (String × String))
    (env : PackageEnv) (pname latest : String) :
    (FakeNodeRuntime.binary_path u).isPanicked = true ∧
    (FakeNodeRuntime.run_npm d sub args).isPanicked = true ∧
    (FakeNodeRuntime.npm_package_latest_version name).isPanicked = true ∧
    (FakeNodeRuntime.npm_install_packages dir pkgs).isPanicked = true ∧
    FakeNodeRuntime.should_install env pname latest =
      should_install_npm_package env pname latest :=
  ⟨rfl, rfl, rfl, rfl, rfl⟩

end NodeRuntime
